import Mathlib

/-!
Verification of the orchestration code of this repository:

* `random-testing/create_circuit.py` — randomized circuit generation;
* `random-testing/random_statevector_test.py` — cross-validation of the
  statevector and tensor-network backends;
* `test/terra/noise/test_noise_model.py` — the noise-model integration tests.

Python floats that are merely carried around (gate parameters) are embedded
with an abstract type `α`; floats that are computed with (probabilities,
thresholds, targets) are embedded as exact rationals `ℚ`.  Python's seeded
global `random` generator is embedded as a stream of draws together with a
position counter; `random.choice` on an empty list (an `IndexError`) is
embedded as `none`.
-/

namespace RandomTesting

/-- A gate as built by `Gate(name=gate, num_qubits=gate_size, params=phase_params)`
in `create_circuit.py`.  Gate parameters have the abstract type `α`. -/
structure Gate (α : Type) where
  name : String
  num_qubits : Nat
  params : List α
deriving DecidableEq

/-- A gate application `qc.append(full_gate, list_qubits)`: the gate together
with the indices of the qubits it acts on. -/
structure GateApp (α : Type) where
  gate : Gate α
  qubits : List Nat
deriving DecidableEq

/-- One instruction of a circuit: an appended gate, or a snapshot added by
`qc.snapshot(label, snapshot_type=...)`. -/
inductive Instr (α : Type) where
  | gate (g : GateApp α)
  | snap (label : String) (snapshot_type : String)
deriving DecidableEq

/-- The state of Python's global `random` generator after seeding: an infinite
stream of draws.  `ints k` drives the k-th `random.choice` call (reduced modulo
the list length) and `reals k` drives the k-th `random.uniform(0, pi)` call; a
single position counter is shared by both, mirroring the single underlying
Mersenne-Twister stream. -/
structure RandGen (α : Type) where
  ints : Nat → Nat
  reals : Nat → α

/-- `random.choice(l)` at stream position `k`: an `IndexError` (modelled as
`none`) on an empty list, otherwise the selected element together with the
advanced position. -/
def choice {β α : Type} (g : RandGen β) (l : List α) (k : Nat) : Option (α × Nat) :=
  match l with
  | [] => none
  | x :: xs => some ((x :: xs).get ⟨g.ints k % (x :: xs).length, Nat.mod_lt _ (Nat.succ_pos xs.length)⟩, k + 1)

/-- `random.uniform(0, pi)` at stream position `k`: the next real draw together
with the advanced position. -/
def uniform {α : Type} (g : RandGen α) (k : Nat) : α × Nat :=
  (g.reals k, k + 1)

/-- `kind_of_gate = ['one qubit', 'two qubits']` from `create_circuit.py`. -/
def kind_of_gate : List String := ["one qubit", "two qubits"]

/-- `one_qubit = ['x', 'y', 'z', 'h', 't', 's', 'tdg', 'sdg', 'id', 'u1', 'u2', 'u3']`. -/
def one_qubit : List String := ["x", "y", "z", "h", "t", "s", "tdg", "sdg", "id", "u1", "u2", "u3"]

/-- `two_qubits = ['cx', 'cz', 'swap']`. -/
def two_qubits : List String := ["cx", "cz", "swap"]

/-- The three parameter-drawing `if` statements of the loop body of
`create_circuit`: `phase_params` starts empty; a gate in `['u1','u2','u3']`
appends `lambda_`, a gate in `['u2','u3']` then appends `phi_`, and `'u3'`
finally appends `theta_`, each drawn by `random.uniform(0, np.pi)`. -/
def draw_params {α : Type} (g : RandGen α) (gate : String) (k0 : Nat) : List α × Nat :=
  let phase_params : List α := []
  let s1 := if gate ∈ ["u1", "u2", "u3"] then
      let u := uniform g k0
      (phase_params ++ [u.1], u.2)
    else (phase_params, k0)
  let s2 := if gate ∈ ["u2", "u3"] then
      let u := uniform g s1.2
      (s1.1 ++ [u.1], u.2)
    else s1
  let s3 := if gate ∈ ["u3"] then
      let u := uniform g s2.2
      (s2.1 ++ [u.1], u.2)
    else s2
  s3

/-- The number of parameters the specification assigns to a gate name:
1 for `'u1'`, 2 for `'u2'`, 3 for `'u3'`, 0 for every other gate. -/
def paramCount (name : String) : Nat :=
  if name = "u1" then 1 else if name = "u2" then 2 else if name = "u3" then 3 else 0

/-- One iteration of the `for num_gates in range(number_of_gates)` loop body of
`create_circuit`: draw a qubit from `range(num_qubits)`, a kind from
`kind_of_gate`, a gate name from `one_qubit` or `two_qubits` accordingly, the
phase parameters, and — for a gate in `['cx', 'cz', 'swap']` — a second qubit
from `list(range(num_qubits))` with the first qubit removed.  The appended
qubit list is `[qubit]` when `gate_size == 1` and `[qubit, second_qubit]`
otherwise; in the branch without a second qubit the drawn gate is a one-qubit
gate, so `gate_size == 1` there.  A failing `random.choice` propagates as
`none`. -/
def create_gate {α : Type} (g : RandGen α) (num_qubits : Nat) (k0 : Nat) :
    Option (GateApp α × Nat) :=
  match choice g (List.range num_qubits) k0 with
  | none => none
  | some (qubit, k1) =>
    match choice g kind_of_gate k1 with
    | none => none
    | some (kind, k2) =>
      match (if kind = "one qubit" then choice g one_qubit k2 else choice g two_qubits k2) with
      | none => none
      | some (gate, k3) =>
        let gate_size : Nat := if kind = "one qubit" then 1 else 2
        let pk := draw_params g gate k3
        if gate ∈ ["cx", "cz", "swap"] then
          match choice g ((List.range num_qubits).erase qubit) pk.2 with
          | none => none
          | some (second_qubit, k5) =>
            some (⟨⟨gate, gate_size, pk.1⟩,
                   if gate_size = 1 then [qubit] else [qubit, second_qubit]⟩, k5)
        else
          some (⟨⟨gate, gate_size, pk.1⟩, [qubit]⟩, pk.2)

/-- The whole `for num_gates in range(number_of_gates)` loop of
`create_circuit`: the list of appended gates in order, together with the final
stream position. -/
def create_gates {α : Type} (g : RandGen α) (num_qubits : Nat) :
    Nat → Nat → Option (List (GateApp α) × Nat)
  | 0, k => some ([], k)
  | n + 1, k =>
    match create_gate g num_qubits k with
    | none => none
    | some (ga, k1) =>
      match create_gates g num_qubits n k1 with
      | none => none
      | some (rest, k2) => some (ga :: rest, k2)

/-- `create_circuit(num_qubits, number_of_gates, seed, qc)`.  `mt` models the
Mersenne Twister: the generator state produced by `random.seed(seed)`.
`ambient` is the global `random` state (generator and position) before the
call; the function begins with `random.seed(seed)`, which discards it.  The
returned circuit is `qc` with the generated gates appended; `none` models an
uncaught `IndexError` from `random.choice`. -/
def create_circuit {α : Type} (mt : Nat → RandGen α) (ambient : RandGen α × Nat)
    (num_qubits number_of_gates seed : Nat) (qc : List (Instr α)) :
    Option (List (Instr α)) :=
  let g := mt seed
  match create_gates g num_qubits number_of_gates 0 with
  | none => none
  | some (gs, _) => some (qc ++ gs.map Instr.gate)

/-- The seed-sentinel handling of `random_statevector_test` (lines 15–16):
`if seed == 100000000: seed = random.choice(range(seed))`, drawing from the
ambient global generator `g` at position `k`.  Returns the seed actually used
together with the new stream position. -/
def resolve_seed {α : Type} (g : RandGen α) (k : Nat) (seed : Nat) : Option (Nat × Nat) :=
  if seed = 100000000 then choice g (List.range seed) k else some (seed, k)

/-- One call to qiskit's `execute` as issued by `random_statevector_test`:
the circuit list, the `"method"` entry of `backend_options`, and the shot
count. -/
structure ExecuteCall (α : Type) where
  circuits : List (List (Instr α))
  method : String
  shots : Nat
deriving DecidableEq

/-- `random_statevector_test` up to its two `execute` calls: resolve the seed
sentinel, build the circuit with `create_circuit` on a fresh empty circuit,
append the single snapshot `qc.snapshot('my_sv', snapshot_type='statevector')`,
and issue the two `execute([qc], ...)` calls — first with backend option
`{"method": "statevector"}`, then with `{"method": "tensor_network"}`, each
with `shots=1`.  Returns the list of the two calls in order; `none` models a
raised exception. -/
def random_statevector_test_calls {α : Type} (mt : Nat → RandGen α) (g0 : RandGen α)
    (k0 : Nat) (num_qubits num_gates seed : Nat) : Option (List (ExecuteCall α)) :=
  match resolve_seed g0 k0 seed with
  | none => none
  | some (seed1, k1) =>
    match create_circuit mt (g0, k1) num_qubits num_gates seed1 [] with
    | none => none
    | some qc0 =>
      let qc := qc0 ++ [Instr.snap "my_sv" "statevector"]
      some [⟨[qc], "statevector", 1⟩, ⟨[qc], "tensor_network", 1⟩]

/-- The verdict printed by the comparison loop of `random_statevector_test`:
`"test passed"` or `"FAILURE: <n> mismatches found"`. -/
inductive Verdict where
  | passed
  | failure (mismatches : Nat)
deriving DecidableEq

/-- `threshold = 1e-8` from `random_statevector_test.py`. -/
def threshold : ℚ := 1e-8

/-- The loop-body test of the comparison loop: at index `i`,
`diff0 > threshold or diff1 > threshold` where `diff0`/`diff1` are the
absolute real/imaginary part differences of the two snapshot amplitudes. -/
def mismatchP (tn ex : Nat → ℚ × ℚ) (i : Nat) : Bool :=
  decide (threshold < |(tn i).1 - (ex i).1|) || decide (threshold < |(tn i).2 - (ex i).2|)

/-- The `errors` counter after the loop `for i in range(length)` with
`length = pow(2, num_qubits)`. -/
def count_mismatches (num_qubits : Nat) (tn ex : Nat → ℚ × ℚ) : Nat :=
  List.countP (mismatchP tn ex) (List.range (2 ^ num_qubits))

/-- The final verdict of `random_statevector_test`: `"test passed"` when
`errors == 0`, otherwise the FAILURE message carrying `errors`. -/
def compare_statevectors (num_qubits : Nat) (tn ex : Nat → ℚ × ℚ) : Verdict :=
  let errors := count_mismatches num_qubits tn ex
  if errors = 0 then Verdict.passed else Verdict.failure errors

/-- The per-gate well-formedness property used by the claims about
`create_circuit`: the gate name comes from `one_qubit` with declared size 1
and one target qubit, or from `two_qubits` with declared size 2 and two
distinct target qubits; the parameter list has length `paramCount` of the
name, and every parameter satisfies the uniform-stream predicate `P`. -/
def GateOk {α : Type} (P : α → Prop) (ga : GateApp α) : Prop :=
  ((ga.gate.name ∈ one_qubit ∧ ga.gate.num_qubits = 1 ∧ ∃ a, ga.qubits = [a]) ∨
   (ga.gate.name ∈ two_qubits ∧ ga.gate.num_qubits = 2 ∧
     ∃ a b, ga.qubits = [a, b] ∧ a ≠ b)) ∧
  ga.gate.params.length = paramCount ga.gate.name ∧
  ∀ p ∈ ga.gate.params, P p

/-- A concrete generator over the unit parameter type, every integer draw 0:
used to evaluate the embedded functions on concrete inputs. -/
def unitGen : RandGen Unit :=
  ⟨fun _ => 0, fun _ => ()⟩

end RandomTesting

namespace NoiseTests

/-- The observable steps of a noise-model test method, in the order they are
written in `test_noise_model.py`. -/
inductive Event where
  | buildCircuit
  | buildNoiseModel
  | transpileCall
  | assembleCall
  | appendMeasure
  | runCall
  | isCompleted
  | compareCounts
deriving DecidableEq

/-- The embedding of one noise-model test that runs the simulator:
its method name, its sequence of steps, its `shots` value, its analytically
computed `target` dictionary (hex-key/value pairs, exact rationals), the
numeric probabilities appearing in its noise construction, and the `delta`
passed to `compare_counts`. -/
structure NoiseTest where
  name : String
  events : List Event
  shots : Nat
  target : List (String × ℚ)
  noiseProbs : List ℚ
  delta : ℚ
deriving DecidableEq

/-- The step sequence shared verbatim by every test that runs the simulator
(the correlated-readout test adds an `appendMeasure` step, see below):
build the circuit, build the noise model, `transpile(circuit,
basis_gates=noise_model.basis_gates)`, `assemble([circuit], backend,
shots=shots)`, `backend.run(qobj, noise_model=noise_model)`,
`self.is_completed(result)`, `self.compare_counts(...)`. -/
def pipelineEvents : List Event :=
  [Event.buildCircuit, Event.buildNoiseModel, Event.transpileCall,
   Event.assembleCall, Event.runCall, Event.isCompleted, Event.compareCounts]

/-- `test_readout_error_qubit0` (lines 34–67): bell state, asymmetric readout
error on qubit 0 only. -/
def test_readout_error_qubit0 : NoiseTest :=
  let probs_given0 : List ℚ := [0.9, 0.1]
  let probs_given1 : List ℚ := [0.3, 0.7]
  let shots : Nat := 2000
  { name := "test_readout_error_qubit0"
    events := pipelineEvents
    shots := shots
    target := [("0x0", probs_given0.getD 0 0 * shots / 2),
               ("0x1", probs_given0.getD 1 0 * shots / 2),
               ("0x2", probs_given1.getD 0 0 * shots / 2),
               ("0x3", probs_given1.getD 1 0 * shots / 2)]
    noiseProbs := probs_given0 ++ probs_given1
    delta := 0.05 * shots }

/-- `test_readout_error_qubit1` (lines 69–102): bell state, asymmetric readout
error on qubit 1 only. -/
def test_readout_error_qubit1 : NoiseTest :=
  let probs_given0 : List ℚ := [0.9, 0.1]
  let probs_given1 : List ℚ := [0.3, 0.7]
  let shots : Nat := 2000
  { name := "test_readout_error_qubit1"
    events := pipelineEvents
    shots := shots
    target := [("0x0", probs_given0.getD 0 0 * shots / 2),
               ("0x1", probs_given1.getD 0 0 * shots / 2),
               ("0x2", probs_given0.getD 1 0 * shots / 2),
               ("0x3", probs_given1.getD 1 0 * shots / 2)]
    noiseProbs := probs_given0 ++ probs_given1
    delta := 0.05 * shots }

/-- `test_readout_error_all_qubit` (lines 104–144): bell state, the same
readout error on every qubit. -/
def test_readout_error_all_qubit : NoiseTest :=
  let probs_given0 : List ℚ := [0.9, 0.1]
  let probs_given1 : List ℚ := [0.3, 0.7]
  let shots : Nat := 2000
  let p00 : ℚ := 0.5 * ((probs_given0.getD 0 0) ^ 2 + (probs_given1.getD 0 0) ^ 2)
  let p01 : ℚ := 0.5 * (probs_given0.getD 0 0 * probs_given0.getD 1 0 +
                        probs_given1.getD 0 0 * probs_given1.getD 1 0)
  let p10 : ℚ := 0.5 * (probs_given0.getD 0 0 * probs_given0.getD 1 0 +
                        probs_given1.getD 0 0 * probs_given1.getD 1 0)
  let p11 : ℚ := 0.5 * ((probs_given0.getD 1 0) ^ 2 + (probs_given1.getD 1 0) ^ 2)
  { name := "test_readout_error_all_qubit"
    events := pipelineEvents
    shots := shots
    target := [("0x0", p00 * shots), ("0x1", p01 * shots),
               ("0x2", p10 * shots), ("0x3", p11 * shots)]
    noiseProbs := probs_given0 ++ probs_given1
    delta := 0.05 * shots }

namespace Correlated

/-- `probs_given00 = [0.3, 0, 0, 0.7]` (line 159). -/
def probs_given00 : List ℚ := [0.3, 0, 0, 0.7]

/-- `probs_given01 = [0, 0.6, 0.4, 0]` (line 160). -/
def probs_given01 : List ℚ := [0, 0.6, 0.4, 0]

/-- `probs_given10 = [0, 0, 1, 0]` (line 161). -/
def probs_given10 : List ℚ := [0, 0, 1, 0]

/-- `probs_given11 = [0.1, 0, 0, 0.9]` (line 162). -/
def probs_given11 : List ℚ := [0.1, 0, 0, 0.9]

/-- `probs_noise = [probs_given00, probs_given01, probs_given10, probs_given11]`. -/
def probs_noise : List (List ℚ) := [probs_given00, probs_given01, probs_given10, probs_given11]

/-- `probs_ideal = [0.25, 0.25, 0.25, 0.25]` (line 171). -/
def probs_ideal : List ℚ := [0.25, 0.25, 0.25, 0.25]

/-- `shots = 2000` (line 170). -/
def shots : Nat := 2000

/-- The common comprehension defining `p00`, `p01`, `p10` and `p11`
(lines 172–183): `sum([ideal * noise[j] for ideal, noise in
zip(probs_ideal, probs_noise)])`. -/
def p_out (j : Nat) : ℚ :=
  ((probs_ideal.zip probs_noise).map (fun x => x.1 * x.2.getD j 0)).sum

/-- The `target` dictionary of `test_readout_error_correlated_2qubit`
(lines 184–189). -/
def target : List (String × ℚ) :=
  [("0x0", p_out 0 * shots), ("0x1", p_out 1 * shots),
   ("0x2", p_out 2 * shots), ("0x3", p_out 3 * shots)]

end Correlated

/-- `test_readout_error_correlated_2qubit` (lines 146–198): all-plus state,
correlated two-qubit readout error; the measure instruction is appended to the
assembled qobj before `run`. -/
def test_readout_error_correlated_2qubit : NoiseTest :=
  { name := "test_readout_error_correlated_2qubit"
    events := [Event.buildCircuit, Event.buildNoiseModel, Event.transpileCall,
               Event.assembleCall, Event.appendMeasure, Event.runCall,
               Event.isCompleted, Event.compareCounts]
    shots := Correlated.shots
    target := Correlated.target
    noiseProbs := Correlated.probs_given00 ++ Correlated.probs_given01 ++
                  Correlated.probs_given10 ++ Correlated.probs_given11
    delta := 0.05 * Correlated.shots }

/-- `test_reset_error_specific_qubit_50percent` (lines 200–229). -/
def test_reset_error_specific_qubit_50percent : NoiseTest :=
  let noise_probs : List ℚ := [0.5, 0.5]
  let shots : Nat := 2000
  { name := "test_reset_error_specific_qubit_50percent"
    events := pipelineEvents
    shots := shots
    target := [("0x2", shots / 2), ("0x3", shots / 2)]
    noiseProbs := noise_probs
    delta := 0.05 * shots }

/-- `test_reset_error_specific_qubit_25percent` (lines 231–261). -/
def test_reset_error_specific_qubit_25percent : NoiseTest :=
  let noise_probs : List ℚ := [0.25, 0.75]
  let shots : Nat := 2000
  { name := "test_reset_error_specific_qubit_25percent"
    events := pipelineEvents
    shots := shots
    target := [("0x1", shots / 4), ("0x3", 3 * shots / 4)]
    noiseProbs := noise_probs
    delta := 0.05 * shots }

/-- `test_reset_error_all_qubit_100percent` (lines 263–293). -/
def test_reset_error_all_qubit_100percent : NoiseTest :=
  let noise_probs : List ℚ := [1, 0]
  let shots : Nat := 100
  { name := "test_reset_error_all_qubit_100percent"
    events := pipelineEvents
    shots := shots
    target := [("0x0", shots)]
    noiseProbs := noise_probs
    delta := 0 }

/-- `test_all_qubit_pauli_error_gate_100percent` (lines 295–315):
`pauli_error([('X', 1)])` on `id`. -/
def test_all_qubit_pauli_error_gate_100percent : NoiseTest :=
  let shots : Nat := 100
  { name := "test_all_qubit_pauli_error_gate_100percent"
    events := pipelineEvents
    shots := shots
    target := [("0x3", shots)]
    noiseProbs := [1]
    delta := 0 }

/-- `test_all_qubit_pauli_error_gate_25percent` (lines 317–342):
`pauli_error([('X', 0.25), ('I', 0.75)])` on `id`. -/
def test_all_qubit_pauli_error_gate_25percent : NoiseTest :=
  let shots : Nat := 2000
  { name := "test_all_qubit_pauli_error_gate_25percent"
    events := pipelineEvents
    shots := shots
    target := [("0x0", 9 * shots / 16), ("0x1", 3 * shots / 16),
               ("0x2", 3 * shots / 16), ("0x3", shots / 16)]
    noiseProbs := [0.25, 0.75]
    delta := 0.05 * shots }

/-- `test_specific_qubit_pauli_error_gate_100percent` (lines 344–364):
`pauli_error([('X', 1)])` on `id` of qubit 1. -/
def test_specific_qubit_pauli_error_gate_100percent : NoiseTest :=
  let shots : Nat := 100
  { name := "test_specific_qubit_pauli_error_gate_100percent"
    events := pipelineEvents
    shots := shots
    target := [("0x2", shots)]
    noiseProbs := [1]
    delta := 0 }

/-- `test_specific_qubit_pauli_error_gate_25percent` (lines 366–386):
`pauli_error([('X', 0.25), ('I', 0.75)])` on `id` of qubit 0. -/
def test_specific_qubit_pauli_error_gate_25percent : NoiseTest :=
  let shots : Nat := 2000
  { name := "test_specific_qubit_pauli_error_gate_25percent"
    events := pipelineEvents
    shots := shots
    target := [("0x0", 3 * shots / 4), ("0x1", shots / 4)]
    noiseProbs := [0.25, 0.75]
    delta := 0.05 * shots }

/-- `test_nonlocal_pauli_error_gate_25percent` (lines 388–410):
`pauli_error([('XII', 0.25), ('III', 0.75)])` injected on `cx(0, 1)`. -/
def test_nonlocal_pauli_error_gate_25percent : NoiseTest :=
  let shots : Nat := 2000
  { name := "test_nonlocal_pauli_error_gate_25percent"
    events := pipelineEvents
    shots := shots
    target := [("0x0", 3 * shots / 4), ("0x4", shots / 4)]
    noiseProbs := [0.25, 0.75]
    delta := 0.05 * shots }

/-- `test_all_qubit_pauli_error_measure_25percent` (lines 412–435). -/
def test_all_qubit_pauli_error_measure_25percent : NoiseTest :=
  let shots : Nat := 2000
  { name := "test_all_qubit_pauli_error_measure_25percent"
    events := pipelineEvents
    shots := shots
    target := [("0x0", 9 * shots / 16), ("0x1", 3 * shots / 16),
               ("0x2", 3 * shots / 16), ("0x3", shots / 16)]
    noiseProbs := [0.25, 0.75]
    delta := 0.05 * shots }

/-- `test_specific_qubit_pauli_error_measure_25percent` (lines 437–455). -/
def test_specific_qubit_pauli_error_measure_25percent : NoiseTest :=
  let shots : Nat := 2000
  { name := "test_specific_qubit_pauli_error_measure_25percent"
    events := pipelineEvents
    shots := shots
    target := [("0x0", 3 * shots / 4), ("0x2", shots / 4)]
    noiseProbs := [0.25, 0.75]
    delta := 0.05 * shots }

/-- `test_nonlocal_pauli_error_measure_25percent` (lines 457–478). -/
def test_nonlocal_pauli_error_measure_25percent : NoiseTest :=
  let shots : Nat := 2000
  { name := "test_nonlocal_pauli_error_measure_25percent"
    events := pipelineEvents
    shots := shots
    target := [("0x0", 3 * shots / 4), ("0x2", shots / 4)]
    noiseProbs := [0.25, 0.75]
    delta := 0.05 * shots }

/-- `test_all_qubit_pauli_error_reset_25percent` (lines 480–506). -/
def test_all_qubit_pauli_error_reset_25percent : NoiseTest :=
  let shots : Nat := 2000
  { name := "test_all_qubit_pauli_error_reset_25percent"
    events := pipelineEvents
    shots := shots
    target := [("0x0", 9 * shots / 16), ("0x1", 3 * shots / 16),
               ("0x2", 3 * shots / 16), ("0x3", shots / 16)]
    noiseProbs := [0.25, 0.75]
    delta := 0.05 * shots }

/-- `test_specific_qubit_pauli_error_reset_25percent` (lines 508–529). -/
def test_specific_qubit_pauli_error_reset_25percent : NoiseTest :=
  let shots : Nat := 2000
  { name := "test_specific_qubit_pauli_error_reset_25percent"
    events := pipelineEvents
    shots := shots
    target := [("0x0", 3 * shots / 4), ("0x2", shots / 4)]
    noiseProbs := [0.25, 0.75]
    delta := 0.05 * shots }

/-- `test_nonlocal_pauli_error_reset_25percent` (lines 531–554). -/
def test_nonlocal_pauli_error_reset_25percent : NoiseTest :=
  let shots : Nat := 2000
  { name := "test_nonlocal_pauli_error_reset_25percent"
    events := pipelineEvents
    shots := shots
    target := [("0x0", 3 * shots / 4), ("0x2", shots / 4)]
    noiseProbs := [0.25, 0.75]
    delta := 0.05 * shots }

/-- `test_amplitude_damping_error` (lines 556–580):
`amplitude_damping_error(0.75, 0.25)` on `id`. -/
def test_amplitude_damping_error : NoiseTest :=
  let shots : Nat := 2000
  { name := "test_amplitude_damping_error"
    events := pipelineEvents
    shots := shots
    target := [("0x0", 3 * shots / 4), ("0x1", shots / 4)]
    noiseProbs := [0.75, 0.25]
    delta := 0.05 * shots }

/-- `test_standard_reset0_error_100percent` (lines 582–602): `reset_error(1)`. -/
def test_standard_reset0_error_100percent : NoiseTest :=
  let shots : Nat := 100
  { name := "test_standard_reset0_error_100percent"
    events := pipelineEvents
    shots := shots
    target := [("0x0", shots)]
    noiseProbs := [1]
    delta := 0 }

/-- `test_standard_reset1_error_100percent` (lines 604–624): `reset_error(0, 1)`. -/
def test_standard_reset1_error_100percent : NoiseTest :=
  let shots : Nat := 100
  { name := "test_standard_reset1_error_100percent"
    events := pipelineEvents
    shots := shots
    target := [("0x1", shots)]
    noiseProbs := [0, 1]
    delta := 0 }

/-- `test_standard_reset0reset1_error_50percent` (lines 626–652):
`reset_error(0.25, 0.25)`. -/
def test_standard_reset0reset1_error_50percent : NoiseTest :=
  let shots : Nat := 2000
  { name := "test_standard_reset0reset1_error_50percent"
    events := pipelineEvents
    shots := shots
    target := [("0x0", 3 * shots / 16), ("0x1", shots / 16),
               ("0x2", 9 * shots / 16), ("0x3", 3 * shots / 16)]
    noiseProbs := [0.25, 0.25]
    delta := 0.05 * shots }

/-- The twenty-two noise-model tests of `test_noise_model.py` that run the
simulator and compare counts, in source order.  The remaining five tests
(`test_noise_model_basis_gates`, `test_noise_model_noise_instructions`,
`test_noise_model_noise_qubits`, `test_noise_models_equal`,
`test_noise_models_not_equal`) never call `backend.run`. -/
def noise_run_tests : List NoiseTest :=
  [test_readout_error_qubit0,
   test_readout_error_qubit1,
   test_readout_error_all_qubit,
   test_readout_error_correlated_2qubit,
   test_reset_error_specific_qubit_50percent,
   test_reset_error_specific_qubit_25percent,
   test_reset_error_all_qubit_100percent,
   test_all_qubit_pauli_error_gate_100percent,
   test_all_qubit_pauli_error_gate_25percent,
   test_specific_qubit_pauli_error_gate_100percent,
   test_specific_qubit_pauli_error_gate_25percent,
   test_nonlocal_pauli_error_gate_25percent,
   test_all_qubit_pauli_error_measure_25percent,
   test_specific_qubit_pauli_error_measure_25percent,
   test_nonlocal_pauli_error_measure_25percent,
   test_all_qubit_pauli_error_reset_25percent,
   test_specific_qubit_pauli_error_reset_25percent,
   test_nonlocal_pauli_error_reset_25percent,
   test_amplitude_damping_error,
   test_standard_reset0_error_100percent,
   test_standard_reset1_error_100percent,
   test_standard_reset0reset1_error_50percent]

/-- The stage-ordering checker: scan the step sequence maintaining flags for
the stages already seen (build, transpile, assemble, run, compare); a
`transpile` requires the circuit to be built, an `assemble` requires a
preceding `transpile`, a `run` requires a preceding `transpile` and a
preceding `assemble`, and a `compareCounts` requires a preceding `run`; at
the end all five stages must have occurred. -/
def stagesOrdered : List Event → Bool → Bool → Bool → Bool → Bool → Bool
  | [], sb, st, sa, sr, sc => sb && st && sa && sr && sc
  | e :: rest, sb, st, sa, sr, sc =>
    match e with
    | Event.buildCircuit => stagesOrdered rest true st sa sr sc
    | Event.transpileCall => sb && stagesOrdered rest sb true sa sr sc
    | Event.assembleCall => st && stagesOrdered rest sb st true sr sc
    | Event.runCall => st && sa && stagesOrdered rest sb st sa true sc
    | Event.compareCounts => sr && stagesOrdered rest sb st sa sr true
    | _ => stagesOrdered rest sb st sa sr sc

/-- A step sequence follows the pipeline: starting with no stage seen,
every stage occurs, in the order build, transpile, assemble, run, compare. -/
def pipelineOk (tr : List Event) : Bool :=
  stagesOrdered tr false false false false false

/-- A noise construction is deterministic when every probability appearing in
it is 0 or 1, i.e. every realized error channel has probability 1. -/
def deterministicNoise (probs : List ℚ) : Bool :=
  probs.all (fun p => p == 0 || p == 1)

/-- The hexadecimal digit of `j < 16`, as produced by Python's `hex`. -/
def hexDigit : Nat → String
  | 0 => "0" | 1 => "1" | 2 => "2" | 3 => "3"
  | 4 => "4" | 5 => "5" | 6 => "6" | 7 => "7"
  | 8 => "8" | 9 => "9" | 10 => "a" | 11 => "b"
  | 12 => "c" | 13 => "d" | 14 => "e" | 15 => "f"
  | _ => ""

/-- The dictionary key `'0x' + hex digit of j` used in the targets, for
outcomes `j < 16`. -/
def hexKey (j : Nat) : String :=
  "0x" ++ hexDigit j


/-- A noise construction is deterministic when every probability appearing in
it is 0 or 1, i.e. every realized error channel has probability 1. -/
def DeterministicNoise (probs : List ℚ) : Prop :=
  ∀ p ∈ probs, p = 0 ∨ p = 1

instance instDecDeterministicNoise (probs : List ℚ) : Decidable (DeterministicNoise probs) :=
  List.decidableBAll _ probs

/-- The names of the noise tests whose error channels all have probability 1:
the 100% reset test, the two 100% Pauli tests, and the `reset_error(1)` and
`reset_error(0, 1)` tests. -/
def deterministic_test_names : List String :=
  ["test_reset_error_all_qubit_100percent",
   "test_all_qubit_pauli_error_gate_100percent",
   "test_specific_qubit_pauli_error_gate_100percent",
   "test_standard_reset0_error_100percent",
   "test_standard_reset1_error_100percent"]

end NoiseTests

namespace RandomTesting

/-- An element returned by `choice` is an element of the chosen-from list, and
the stream position advances by one. -/
theorem choice_spec {β α : Type} {g : RandGen β} {l : List α} {k : Nat} {x : α} {k' : Nat}
    (h : choice g l k = some (x, k')) : x ∈ l ∧ k' = k + 1 := by
  cases l with
  | nil => simp [choice] at h
  | cons a as =>
    simp only [choice, Option.some.injEq, Prod.mk.injEq] at h
    exact ⟨h.1 ▸ List.get_mem _ _ _, h.2.symm⟩

/-- None of the one-qubit gate names is a two-qubit gate name. -/
theorem one_qubit_not_two : ∀ s ∈ one_qubit, s ∉ (["cx", "cz", "swap"] : List String) := by
  decide

/-- `draw_params` draws exactly `paramCount gate` parameters: one for `'u1'`,
two for `'u2'`, three for `'u3'`, none for any other gate name. -/
theorem draw_params_length {α : Type} (g : RandGen α) (gate : String) (k : Nat) :
    (draw_params g gate k).1.length = paramCount gate := by
  rcases eq_or_ne gate "u1" with h1 | h1
  · subst h1; simp +decide [draw_params, uniform, paramCount]
  rcases eq_or_ne gate "u2" with h2 | h2
  · subst h2; simp +decide [draw_params, uniform, paramCount]
  rcases eq_or_ne gate "u3" with h3 | h3
  · subst h3; simp +decide [draw_params, uniform, paramCount]
  have m1 : gate ∉ (["u1", "u2", "u3"] : List String) := by simp [h1, h2, h3]
  have m2 : gate ∉ (["u2", "u3"] : List String) := by simp [h2, h3]
  have m3 : gate ∉ (["u3"] : List String) := by simp [h3]
  simp [draw_params, paramCount, m1, m2, m3, h1, h2, h3]

/-- Every parameter drawn by `draw_params` comes from the `uniform` stream of
the generator. -/
theorem draw_params_mem {α : Type} (g : RandGen α) (gate : String) (k : Nat)
    (P : α → Prop) (hP : ∀ j, P (g.reals j)) :
    ∀ p ∈ (draw_params g gate k).1, P p := by
  intro p hp
  rcases eq_or_ne gate "u1" with h1 | h1
  · subst h1
    simp +decide [draw_params, uniform] at hp
    exact hp ▸ hP _
  rcases eq_or_ne gate "u2" with h2 | h2
  · subst h2
    simp +decide [draw_params, uniform] at hp
    rcases hp with rfl | rfl <;> exact hP _
  rcases eq_or_ne gate "u3" with h3 | h3
  · subst h3
    simp +decide [draw_params, uniform] at hp
    rcases hp with rfl | rfl | rfl <;> exact hP _
  have m1 : gate ∉ (["u1", "u2", "u3"] : List String) := by simp [h1, h2, h3]
  have m2 : gate ∉ (["u2", "u3"] : List String) := by simp [h2, h3]
  have m3 : gate ∉ (["u3"] : List String) := by simp [h3]
  simp [draw_params, m1, m2, m3, h1, h2, h3] at hp

/-- Any gate produced by one loop iteration of `create_circuit` is
well-formed in the sense of `GateOk`. -/
theorem create_gate_spec {α : Type} {g : RandGen α} {nq k : Nat} {ga : GateApp α} {k' : Nat}
    (P : α → Prop) (hP : ∀ j, P (g.reals j))
    (h : create_gate g nq k = some (ga, k')) : GateOk P ga := by
  unfold create_gate at h
  cases h0 : choice g (List.range nq) k with
  | none => rw [h0] at h; exact absurd h (by simp)
  | some qk =>
  obtain ⟨qubit, k1⟩ := qk
  rw [h0] at h
  dsimp only at h
  cases h1 : choice g kind_of_gate k1 with
  | none => rw [h1] at h; exact absurd h (by simp)
  | some kk =>
  obtain ⟨kind, k2⟩ := kk
  rw [h1] at h
  dsimp only at h
  by_cases hk : kind = "one qubit"
  · rw [if_pos hk] at h
    cases h2 : choice g one_qubit k2 with
    | none => rw [h2] at h; exact absurd h (by simp)
    | some gk =>
    obtain ⟨gate, k3⟩ := gk
    rw [h2] at h
    dsimp only at h
    have hmem : gate ∈ one_qubit := (choice_spec h2).1
    rw [if_neg (one_qubit_not_two gate hmem)] at h
    simp only [Option.some.injEq, Prod.mk.injEq] at h
    obtain ⟨hga, -⟩ := h
    subst hga
    refine ⟨Or.inl ⟨hmem, by simp [hk], qubit, rfl⟩, ?_, ?_⟩
    · exact draw_params_length g gate k3
    · exact draw_params_mem g gate k3 P hP
  · rw [if_neg hk] at h
    cases h2 : choice g two_qubits k2 with
    | none => rw [h2] at h; exact absurd h (by simp)
    | some gk =>
    obtain ⟨gate, k3⟩ := gk
    rw [h2] at h
    dsimp only at h
    have hmem : gate ∈ two_qubits := (choice_spec h2).1
    rw [if_pos (show gate ∈ (["cx", "cz", "swap"] : List String) from hmem)] at h
    cases h3 : choice g ((List.range nq).erase qubit) (draw_params g gate k3).2 with
    | none => rw [h3] at h; exact absurd h (by simp)
    | some sk =>
    obtain ⟨second_qubit, k5⟩ := sk
    rw [h3] at h
    dsimp only at h
    have hsec : second_qubit ∈ (List.range nq).erase qubit := (choice_spec h3).1
    have hne : second_qubit ≠ qubit :=
      (((List.nodup_range nq).mem_erase_iff).mp hsec).1
    simp only [Option.some.injEq, Prod.mk.injEq] at h
    obtain ⟨hga, -⟩ := h
    subst hga
    refine ⟨Or.inr ⟨hmem, by simp [hk], qubit, second_qubit, by simp [hk], hne.symm⟩, ?_, ?_⟩
    · exact draw_params_length g gate k3
    · exact draw_params_mem g gate k3 P hP

/-- Every run of the loop of `create_circuit` produces exactly as many gates
as requested, all well-formed. -/
theorem create_gates_spec {α : Type} {g : RandGen α} {nq : Nat} (P : α → Prop)
    (hP : ∀ j, P (g.reals j)) :
    ∀ {n k : Nat} {gs : List (GateApp α)} {k' : Nat},
      create_gates g nq n k = some (gs, k') →
      gs.length = n ∧ ∀ ga ∈ gs, GateOk P ga := by
  intro n
  induction n with
  | zero =>
    intro k gs k' h
    simp only [create_gates, Option.some.injEq, Prod.mk.injEq] at h
    obtain ⟨rfl, -⟩ := h
    simp
  | succ m ih =>
    intro k gs k' h
    unfold create_gates at h
    cases h0 : create_gate g nq k with
    | none => rw [h0] at h; exact absurd h (by simp)
    | some gk =>
    obtain ⟨ga, k1⟩ := gk
    rw [h0] at h
    dsimp only at h
    cases h1 : create_gates g nq m k1 with
    | none => rw [h1] at h; exact absurd h (by simp)
    | some rk =>
    obtain ⟨rest, k2⟩ := rk
    rw [h1] at h
    dsimp only at h
    simp only [Option.some.injEq, Prod.mk.injEq] at h
    obtain ⟨rfl, -⟩ := h
    obtain ⟨hlen, hall⟩ := ih h1
    refine ⟨by simp [hlen], ?_⟩
    intro x hx
    rcases List.mem_cons.mp hx with rfl | hx
    · exact create_gate_spec P hP h0
    · exact hall x hx

end RandomTesting

namespace RandomTesting

/-- With a single qubit, one loop iteration of `create_circuit` raises exactly
when the kind draw selects `'two qubits'` (the second entry of
`kind_of_gate`): the candidate list for the second qubit is emptied by
`choices.remove(qubit)` and `random.choice` fails on it. -/
theorem create_gate_one_qubit_none_iff {α : Type} (g : RandGen α) (k : Nat) :
    create_gate g 1 k = none ↔ g.ints (k + 1) % 2 = 1 := by
  rcases Nat.mod_two_eq_zero_or_one (g.ints (k + 1)) with hm | hm
  · have hr : List.range 1 = [0] := rfl
    have h12 : g.ints (k + 2) % 12 < 12 := Nat.mod_lt _ (by omega)
    constructor
    · intro h
      exfalso
      set j := g.ints (k + 2) % 12 with hj
      interval_cases j <;>
        simp [create_gate, choice, kind_of_gate, one_qubit, hr, hm, Nat.mod_one, ← hj] at h <;>
        revert h <;> decide
    · intro h
      omega
  · have hr : List.range 1 = [0] := rfl
    have h3 : g.ints (k + 2) % 3 < 3 := Nat.mod_lt _ (by omega)
    constructor
    · intro _; exact hm
    · intro _
      set j := g.ints (k + 2) % 3 with hj
      interval_cases j <;>
        simp [create_gate, choice, kind_of_gate, two_qubits, hr, hm, Nat.mod_one, ← hj]

/-- C3: `create_circuit(num_qubits, number_of_gates, seed, qc)` appends exactly
`number_of_gates` gate instructions to `qc` and returns `qc`; each appended
gate carries a name from `one_qubit` (declared size 1) or from `two_qubits`
(declared size 2); a gate named `'u1'` carries exactly 1 parameter, `'u2'`
exactly 2, `'u3'` exactly 3, all other gates 0; and every parameter is a value
of the `uniform` stream of the seeded generator, hence satisfies any property
`P` (such as membership in `[0, pi]`) that `random.uniform(0, pi)` guarantees
of its results. -/
theorem create_circuit_appends_random_gates {α : Type} (mt : Nat → RandGen α)
    (ambient : RandGen α × Nat) (num_qubits number_of_gates seed : Nat)
    (qc out : List (Instr α)) (P : α → Prop)
    (hP : ∀ k, P ((mt seed).reals k))
    (h : create_circuit mt ambient num_qubits number_of_gates seed qc = some out) :
    ∃ news : List (GateApp α),
      out = qc ++ news.map Instr.gate ∧
      news.length = number_of_gates ∧
      ∀ ga ∈ news,
        ((ga.gate.name ∈ one_qubit ∧ ga.gate.num_qubits = 1) ∨
         (ga.gate.name ∈ two_qubits ∧ ga.gate.num_qubits = 2)) ∧
        (ga.gate.name = "u1" → ga.gate.params.length = 1) ∧
        (ga.gate.name = "u2" → ga.gate.params.length = 2) ∧
        (ga.gate.name = "u3" → ga.gate.params.length = 3) ∧
        (ga.gate.name ∉ (["u1", "u2", "u3"] : List String) → ga.gate.params.length = 0) ∧
        ∀ p ∈ ga.gate.params, P p := by
  unfold create_circuit at h
  dsimp only at h
  cases h0 : create_gates (mt seed) num_qubits number_of_gates 0 with
  | none => rw [h0] at h; exact absurd h (by simp)
  | some gk =>
  obtain ⟨gs, kf⟩ := gk
  rw [h0] at h
  dsimp only at h
  simp only [Option.some.injEq] at h
  subst h
  obtain ⟨hlen, hall⟩ := create_gates_spec P hP h0
  refine ⟨gs, rfl, hlen, ?_⟩
  intro ga hga
  obtain ⟨hshape, hplen, hpmem⟩ := hall ga hga
  refine ⟨?_, ?_, ?_, ?_, ?_, hpmem⟩
  · rcases hshape with ⟨hm, hs, -⟩ | ⟨hm, hs, -⟩
    · exact Or.inl ⟨hm, hs⟩
    · exact Or.inr ⟨hm, hs⟩
  · intro hname; rw [hplen, hname]; decide
  · intro hname; rw [hplen, hname]; decide
  · intro hname; rw [hplen, hname]; decide
  · intro hname
    simp only [List.mem_cons, List.not_mem_nil, or_false, not_or] at hname
    rw [hplen]
    simp [paramCount, hname.1, hname.2.1, hname.2.2]

/-- Witness for C3 at a concrete input: the all-zeros generator over `Unit`,
two qubits, one gate. -/
theorem create_circuit_appends_random_gates_witness :
    ∃ news : List (GateApp Unit),
      [Instr.gate ⟨⟨"x", 1, []⟩, [0]⟩] = ([] : List (Instr Unit)) ++ news.map Instr.gate ∧
      news.length = 1 ∧
      ∀ ga ∈ news,
        ((ga.gate.name ∈ one_qubit ∧ ga.gate.num_qubits = 1) ∨
         (ga.gate.name ∈ two_qubits ∧ ga.gate.num_qubits = 2)) ∧
        (ga.gate.name = "u1" → ga.gate.params.length = 1) ∧
        (ga.gate.name = "u2" → ga.gate.params.length = 2) ∧
        (ga.gate.name = "u3" → ga.gate.params.length = 3) ∧
        (ga.gate.name ∉ (["u1", "u2", "u3"] : List String) → ga.gate.params.length = 0) ∧
        ∀ p ∈ ga.gate.params, (fun _ => True) p :=
  create_circuit_appends_random_gates (fun _ => unitGen) (unitGen, 0) 2 1 0 []
    [Instr.gate ⟨⟨"x", 1, []⟩, [0]⟩] (fun _ => True) (fun _ => trivial) rfl

/-- C8: `create_circuit` is deterministic in its seed: `random.seed(seed)` is
called before anything is drawn, so the result does not depend on the ambient
global generator state, and two calls with equal arguments and equal circuits
append identical gate sequences. -/
theorem create_circuit_seed_deterministic {α : Type} (mt : Nat → RandGen α)
    (amb1 amb2 : RandGen α × Nat) (num_qubits number_of_gates seed : Nat)
    (qc1 qc2 : List (Instr α)) (h : qc1 = qc2) :
    create_circuit mt amb1 num_qubits number_of_gates seed qc1 =
      create_circuit mt amb2 num_qubits number_of_gates seed qc2 := by
  subst h
  rfl

/-- Witness for C8: two calls with distinct ambient generator states agree. -/
theorem create_circuit_seed_deterministic_witness :
    create_circuit (fun _ => unitGen) (unitGen, 0) 2 1 0 [] =
      create_circuit (fun _ => unitGen) (⟨fun n => n + 1, fun _ => ()⟩, 5) 2 1 0 [] :=
  create_circuit_seed_deterministic (fun _ => unitGen) (unitGen, 0)
    (⟨fun n => n + 1, fun _ => ()⟩, 5) 2 1 0 [] [] rfl

/-- C9: with `num_qubits ≥ 2` every appended two-qubit gate acts on two
distinct qubits (the first qubit is removed from the candidate list before the
second is chosen); with `num_qubits = 1` a loop iteration fails with an error
exactly when a two-qubit gate kind is drawn. -/
theorem two_qubit_gate_safety {α : Type} (mt : Nat → RandGen α)
    (ambient : RandGen α × Nat) (num_qubits number_of_gates seed : Nat)
    (qc out : List (Instr α)) (g : RandGen α) (k : Nat) :
    (2 ≤ num_qubits →
      create_circuit mt ambient num_qubits number_of_gates seed qc = some out →
      ∃ news : List (GateApp α), out = qc ++ news.map Instr.gate ∧
        ∀ ga ∈ news, ga.gate.name ∈ two_qubits →
          ∃ a b, ga.qubits = [a, b] ∧ a ≠ b) ∧
    (create_gate g 1 k = none ↔ g.ints (k + 1) % 2 = 1) := by
  refine ⟨?_, create_gate_one_qubit_none_iff g k⟩
  intro _ h
  unfold create_circuit at h
  dsimp only at h
  cases h0 : create_gates (mt seed) num_qubits number_of_gates 0 with
  | none => rw [h0] at h; exact absurd h (by simp)
  | some gk =>
  obtain ⟨gs, kf⟩ := gk
  rw [h0] at h
  dsimp only at h
  simp only [Option.some.injEq] at h
  subst h
  obtain ⟨-, hall⟩ := create_gates_spec (fun _ => True) (fun _ => trivial) h0
  refine ⟨gs, rfl, ?_⟩
  intro ga hga hmem2
  obtain ⟨hshape, -, -⟩ := hall ga hga
  rcases hshape with ⟨hm1, -, -⟩ | ⟨-, -, hq⟩
  · exact absurd hmem2 (one_qubit_not_two _ hm1)
  · exact hq

/-- Witness for C9 at a concrete input. -/
theorem two_qubit_gate_safety_witness :
    ∃ news : List (GateApp Unit),
      [Instr.gate ⟨⟨"x", 1, []⟩, [0]⟩] = ([] : List (Instr Unit)) ++ news.map Instr.gate ∧
      ∀ ga ∈ news, ga.gate.name ∈ two_qubits →
        ∃ a b, ga.qubits = [a, b] ∧ a ≠ b :=
  (two_qubit_gate_safety (fun _ => unitGen) (unitGen, 0) 2 1 0 []
    [Instr.gate ⟨⟨"x", 1, []⟩, [0]⟩] unitGen 0).1 (by omega) rfl

set_option maxRecDepth 4000 in
/-- C10: the default seed value 100000000 is a sentinel: exactly when the seed
argument equals it, the seed actually used is redrawn by
`random.choice(range(100000000))` and is therefore strictly below 100000000,
so 100000000 itself is never used; any other seed passes through unchanged. -/
theorem seed_sentinel_redraw {α : Type} (g : RandGen α) (k seed : Nat) :
    (seed = 100000000 →
      ∃ s k', resolve_seed g k seed = some (s, k') ∧
        s ∈ List.range 100000000 ∧ s < 100000000 ∧ k' = k + 1) ∧
    (seed ≠ 100000000 → resolve_seed g k seed = some (seed, k)) := by
  constructor
  · rintro rfl
    rw [resolve_seed, if_pos rfl]
    cases hL : List.range 100000000 with
    | nil => exact absurd (congrArg List.length hL) (by simp)
    | cons a as =>
      have hget : (a :: as).get ⟨g.ints k % (a :: as).length,
          Nat.mod_lt _ (Nat.succ_pos as.length)⟩ ∈ List.range 100000000 := by
        rw [hL]
        exact List.get_mem _ _ _
      exact ⟨_, k + 1, rfl, List.get_mem _ _ _, List.mem_range.mp hget, rfl⟩
  · intro h
    rw [resolve_seed, if_neg h]

/-- Witness for C10 at both a sentinel seed and an ordinary seed. -/
theorem seed_sentinel_redraw_witness :
    (∃ s k', resolve_seed unitGen 0 100000000 = some (s, k') ∧
      s ∈ List.range 100000000 ∧ s < 100000000 ∧ k' = 0 + 1) ∧
    resolve_seed unitGen 0 42 = some (42, 0) :=
  ⟨(seed_sentinel_redraw unitGen 0 100000000).1 rfl,
   (seed_sentinel_redraw unitGen 0 42).2 (by omega)⟩

end RandomTesting

namespace RandomTesting

/-- Counting with `List.countP` over `List.range n` agrees with the cardinality
of the corresponding filtered `Finset.range n`. -/
theorem countP_range_eq_card (p : Nat → Prop) [DecidablePred p] (n : Nat) :
    List.countP (fun i => decide (p i)) (List.range n) = ((Finset.range n).filter p).card := by
  induction n with
  | zero => simp
  | succ m ih =>
    rw [List.range_succ, List.countP_append, Finset.range_succ, Finset.filter_insert]
    by_cases h : p m
    · rw [if_pos h, Finset.card_insert_of_not_mem (by simp), ← ih]
      simp [h]
    · rw [if_neg h, ← ih]
      simp [h]

/-- C1: the comparison loop of `random_statevector_test` prints `"test passed"`
if and only if at every index `i` below `2 ^ num_qubits` both the real-part and
the imaginary-part differences of the two snapshots are at most the threshold
`1e-8`; otherwise it prints a FAILURE message whose mismatch count is the
number of indices at which at least one of the two differences exceeds the
threshold. -/
theorem random_statevector_test_verdict (num_qubits : Nat) (tn ex : Nat → ℚ × ℚ) :
    (compare_statevectors num_qubits tn ex = Verdict.passed ↔
      ∀ i < 2 ^ num_qubits,
        |(tn i).1 - (ex i).1| ≤ threshold ∧ |(tn i).2 - (ex i).2| ≤ threshold) ∧
    (∀ n, compare_statevectors num_qubits tn ex = Verdict.failure n →
      n = ((Finset.range (2 ^ num_qubits)).filter (fun i =>
        threshold < |(tn i).1 - (ex i).1| ∨ threshold < |(tn i).2 - (ex i).2|)).card) := by
  have hbridge : count_mismatches num_qubits tn ex =
      ((Finset.range (2 ^ num_qubits)).filter (fun i =>
        threshold < |(tn i).1 - (ex i).1| ∨ threshold < |(tn i).2 - (ex i).2|)).card := by
    rw [count_mismatches, ← countP_range_eq_card]
    congr 1
    funext i
    rw [mismatchP]
    by_cases hA : threshold < |(tn i).1 - (ex i).1| <;>
      by_cases hB : threshold < |(tn i).2 - (ex i).2| <;>
      simp [hA, hB]
  have hpass : compare_statevectors num_qubits tn ex = Verdict.passed ↔
      count_mismatches num_qubits tn ex = 0 := by
    rw [compare_statevectors]
    by_cases h : count_mismatches num_qubits tn ex = 0 <;> simp [h]
  have hcount : count_mismatches num_qubits tn ex = 0 ↔
      ∀ i < 2 ^ num_qubits,
        |(tn i).1 - (ex i).1| ≤ threshold ∧ |(tn i).2 - (ex i).2| ≤ threshold := by
    rw [count_mismatches, List.countP_eq_zero]
    constructor
    · intro h i hi
      have hh := h i (List.mem_range.mpr hi)
      simp only [mismatchP, Bool.or_eq_true, decide_eq_true_eq, not_or, not_lt] at hh
      exact hh
    · intro h i hi
      have hh := h i (List.mem_range.mp hi)
      simp only [mismatchP, Bool.or_eq_true, decide_eq_true_eq, not_or, not_lt]
      exact hh
  refine ⟨hpass.trans hcount, ?_⟩
  intro n hn
  rw [compare_statevectors] at hn
  by_cases h : count_mismatches num_qubits tn ex = 0
  · rw [if_pos h] at hn
    exact absurd hn (by simp)
  · rw [if_neg h] at hn
    simp only [Verdict.failure.injEq] at hn
    rw [← hn, hbridge]

/-- Witness for C1: two constant snapshots that differ by 1 in the real part
at the single index of a zero-qubit comparison give one mismatch. -/
theorem random_statevector_test_verdict_witness :
    (1 : Nat) = ((Finset.range (2 ^ 0)).filter (fun i =>
      threshold < |((fun _ => ((0 : ℚ), (0 : ℚ))) i).1 - ((fun _ => ((1 : ℚ), (0 : ℚ))) i).1| ∨
      threshold < |((fun _ => ((0 : ℚ), (0 : ℚ))) i).2 - ((fun _ => ((1 : ℚ), (0 : ℚ))) i).2|)).card :=
  (random_statevector_test_verdict 0 (fun _ => (0, 0)) (fun _ => (1, 0))).2 1
    (by norm_num [compare_statevectors, count_mismatches, mismatchP, threshold, List.range_succ])

/-- C2: whenever `random_statevector_test` reaches its two `execute` calls, it
issues exactly two calls, both on the one-element list containing the very same
circuit — the generated gates followed by the single statevector snapshot
labelled `'my_sv'` — each with `shots = 1`, the first with backend option
method `"statevector"` and the second with `"tensor_network"`; the circuit is
not modified between the calls. -/
theorem execute_calls_identical_input {α : Type} (mt : Nat → RandGen α) (g0 : RandGen α)
    (k0 num_qubits num_gates seed : Nat) (calls : List (ExecuteCall α))
    (h : random_statevector_test_calls mt g0 k0 num_qubits num_gates seed = some calls) :
    ∃ qc : List (Instr α),
      calls = [⟨[qc], "statevector", 1⟩, ⟨[qc], "tensor_network", 1⟩] ∧
      ∃ gates : List (GateApp α),
        qc = gates.map Instr.gate ++ [Instr.snap "my_sv" "statevector"] := by
  unfold random_statevector_test_calls at h
  cases h0 : resolve_seed g0 k0 seed with
  | none => rw [h0] at h; exact absurd h (by simp)
  | some sk =>
  obtain ⟨seed1, k1⟩ := sk
  rw [h0] at h
  dsimp only at h
  cases h1 : create_circuit mt (g0, k1) num_qubits num_gates seed1 [] with
  | none => rw [h1] at h; exact absurd h (by simp)
  | some qc0 =>
  rw [h1] at h
  dsimp only at h
  simp only [Option.some.injEq] at h
  subst h
  refine ⟨qc0 ++ [Instr.snap "my_sv" "statevector"], rfl, ?_⟩
  unfold create_circuit at h1
  dsimp only at h1
  cases h2 : create_gates (mt seed1) num_qubits num_gates 0 with
  | none => rw [h2] at h1; exact absurd h1 (by simp)
  | some gk =>
  obtain ⟨gs, kf⟩ := gk
  rw [h2] at h1
  dsimp only at h1
  simp only [Option.some.injEq] at h1
  exact ⟨gs, by rw [← h1]; simp⟩

/-- Witness for C2: the concrete run with the all-zeros generator and no
generated gates returns two execute calls on the same snapshot-only circuit. -/
theorem execute_calls_identical_input_witness :
    ∃ qc : List (Instr Unit),
      ([⟨[[Instr.snap "my_sv" "statevector"]], "statevector", 1⟩,
        ⟨[[Instr.snap "my_sv" "statevector"]], "tensor_network", 1⟩] : List (ExecuteCall Unit)) =
        [⟨[qc], "statevector", 1⟩, ⟨[qc], "tensor_network", 1⟩] ∧
      ∃ gates : List (GateApp Unit),
        qc = gates.map Instr.gate ++ [Instr.snap "my_sv" "statevector"] :=
  execute_calls_identical_input (fun _ => unitGen) unitGen 0 1 0 0
    [⟨[[Instr.snap "my_sv" "statevector"]], "statevector", 1⟩,
     ⟨[[Instr.snap "my_sv" "statevector"]], "tensor_network", 1⟩] rfl

end RandomTesting

namespace NoiseTests

/-- C4: every noise-model test that runs the simulator follows the pipeline in
order — circuit construction, then `transpile` to the noise model's
`basis_gates`, then `assemble` with the test's shots, then `backend.run` with
the noise model, and only afterwards the comparison of counts; `run` is never
invoked before `transpile` and `assemble`. -/
theorem noise_tests_pipeline_order :
    ∀ t ∈ noise_run_tests, pipelineOk t.events = true := by
  decide

/-- Witness for C4: the correlated-readout test, the one test with an extra
step between `assemble` and `run`, follows the pipeline order. -/
theorem noise_tests_pipeline_order_witness :
    pipelineOk test_readout_error_correlated_2qubit.events = true :=
  noise_tests_pipeline_order test_readout_error_correlated_2qubit
    (by simp only [noise_run_tests]
        exact List.mem_cons_of_mem _ (List.mem_cons_of_mem _ (List.mem_cons_of_mem _
          (List.mem_cons_self _ _))))

/-- C5: in every noise-model test that compares counts, the analytically
computed target distribution sums exactly to the test's shots value. -/
theorem noise_tests_target_sums_to_shots :
    ∀ t ∈ noise_run_tests, (t.target.map Prod.snd).sum = (t.shots : ℚ) := by
  intro t ht
  fin_cases ht <;>
    norm_num [test_readout_error_qubit0, test_readout_error_qubit1,
      test_readout_error_all_qubit, test_readout_error_correlated_2qubit,
      Correlated.target, Correlated.p_out, Correlated.probs_ideal,
      Correlated.probs_noise, Correlated.probs_given00, Correlated.probs_given01,
      Correlated.probs_given10, Correlated.probs_given11, Correlated.shots,
      test_reset_error_specific_qubit_50percent, test_reset_error_specific_qubit_25percent,
      test_reset_error_all_qubit_100percent, test_all_qubit_pauli_error_gate_100percent,
      test_all_qubit_pauli_error_gate_25percent, test_specific_qubit_pauli_error_gate_100percent,
      test_specific_qubit_pauli_error_gate_25percent, test_nonlocal_pauli_error_gate_25percent,
      test_all_qubit_pauli_error_measure_25percent, test_specific_qubit_pauli_error_measure_25percent,
      test_nonlocal_pauli_error_measure_25percent, test_all_qubit_pauli_error_reset_25percent,
      test_specific_qubit_pauli_error_reset_25percent, test_nonlocal_pauli_error_reset_25percent,
      test_amplitude_damping_error, test_standard_reset0_error_100percent,
      test_standard_reset1_error_100percent, test_standard_reset0reset1_error_50percent]

/-- Witness for C5: the all-qubit readout test target sums to its 2000 shots,
because each conditional-probability row sums to 1. -/
theorem noise_tests_target_sums_to_shots_witness :
    (test_readout_error_all_qubit.target.map Prod.snd).sum =
      (test_readout_error_all_qubit.shots : ℚ) :=
  noise_tests_target_sums_to_shots test_readout_error_all_qubit
    (by simp only [noise_run_tests]
        exact List.mem_cons_of_mem _ (List.mem_cons_of_mem _ (List.mem_cons_self _ _)))

/-- C6: in `test_readout_error_correlated_2qubit` the target is the
readout-error transition matrix applied to the uniform ideal distribution:
for each outcome `j`, the entry at key `'0x' + hex digit of j` equals
`shots` times the sum over `i` of `probs_ideal[i] * probs_noise[i][j]`. -/
theorem correlated_target_matrix_apply :
    ∀ j < 4, Correlated.target.lookup (hexKey j) =
      some ((Finset.sum (Finset.range 4) fun i =>
        Correlated.probs_ideal.getD i 0 * (Correlated.probs_noise.getD i []).getD j 0) *
        Correlated.shots) := by
  intro j hj
  interval_cases j <;>
    norm_num [Correlated.target, Correlated.p_out, Correlated.probs_ideal,
      Correlated.probs_noise, Correlated.probs_given00, Correlated.probs_given01,
      Correlated.probs_given10, Correlated.probs_given11, Correlated.shots,
      hexKey, hexDigit, List.lookup, Finset.sum_range_succ] <;>
    decide

/-- Witness for C6 at outcome 2. -/
theorem correlated_target_matrix_apply_witness :
    Correlated.target.lookup (hexKey 2) =
      some ((Finset.sum (Finset.range 4) fun i =>
        Correlated.probs_ideal.getD i 0 * (Correlated.probs_noise.getD i []).getD 2 0) *
        Correlated.shots) :=
  correlated_target_matrix_apply 2 (by omega)

/-- C7: a noise-model test compares counts with `delta = 0` exactly when every
probability in its noise construction is 0 or 1 — the 100% reset test, the two
100% Pauli tests, and the `reset_error(1)` and `reset_error(0, 1)` tests — and
every test with genuinely probabilistic noise uses `delta = 0.05 * shots`. -/
theorem noise_tests_delta_policy :
    ∀ t ∈ noise_run_tests,
      (DeterministicNoise t.noiseProbs ↔ t.name ∈ deterministic_test_names) ∧
      t.delta = if DeterministicNoise t.noiseProbs then 0 else (0.05 : ℚ) * (t.shots : ℚ) := by
  intro t ht
  fin_cases ht <;>
    norm_num [DeterministicNoise, deterministic_test_names,
      test_readout_error_qubit0, test_readout_error_qubit1,
      test_readout_error_all_qubit, test_readout_error_correlated_2qubit,
      Correlated.probs_given00, Correlated.probs_given01,
      Correlated.probs_given10, Correlated.probs_given11, Correlated.shots,
      test_reset_error_specific_qubit_50percent, test_reset_error_specific_qubit_25percent,
      test_reset_error_all_qubit_100percent, test_all_qubit_pauli_error_gate_100percent,
      test_all_qubit_pauli_error_gate_25percent, test_specific_qubit_pauli_error_gate_100percent,
      test_specific_qubit_pauli_error_gate_25percent, test_nonlocal_pauli_error_gate_25percent,
      test_all_qubit_pauli_error_measure_25percent, test_specific_qubit_pauli_error_measure_25percent,
      test_nonlocal_pauli_error_measure_25percent, test_all_qubit_pauli_error_reset_25percent,
      test_specific_qubit_pauli_error_reset_25percent, test_nonlocal_pauli_error_reset_25percent,
      test_amplitude_damping_error, test_standard_reset0_error_100percent,
      test_standard_reset1_error_100percent, test_standard_reset0reset1_error_50percent] <;>
    decide

/-- Witness for C7: the 100% reset test has deterministic noise and delta 0. -/
theorem noise_tests_delta_policy_witness :
    (DeterministicNoise test_reset_error_all_qubit_100percent.noiseProbs ↔
      test_reset_error_all_qubit_100percent.name ∈ deterministic_test_names) ∧
    test_reset_error_all_qubit_100percent.delta =
      if DeterministicNoise test_reset_error_all_qubit_100percent.noiseProbs then 0
      else (0.05 : ℚ) * (test_reset_error_all_qubit_100percent.shots : ℚ) :=
  noise_tests_delta_policy test_reset_error_all_qubit_100percent
    (by simp only [noise_run_tests]
        exact List.mem_cons_of_mem _ (List.mem_cons_of_mem _ (List.mem_cons_of_mem _
          (List.mem_cons_of_mem _ (List.mem_cons_of_mem _ (List.mem_cons_of_mem _
            (List.mem_cons_self _ _)))))))

end NoiseTests
